import Mathlib

/-!
Shallow embedding of the legal fact-checking pipeline of `fcat-checker`
(`src/fact_check/fact_check.py`, `src/fact_check/models.py`,
`src/fact_check/legal_claim_extractor.py`) and proofs about its
evidence routing, gathering, and report assembly.

Modelling conventions:
* External search clients and the two LLM oracles are modelled as inputs:
  each client call's outcome is an `Except String _` value (`.error` = the
  call raised: timeout, transport error, non-2xx, malformed body), and the
  adjudication oracle is a function from the payload it is shown to an
  `Except String JudgeResult` (`.error` = the `generate_content_async` call
  or the `json.loads` of its text raised).
* Loosely structured JSON records (`Dict[str, Any]`) carried as evidence are
  modelled as opaque key-value string maps; the pipeline never relies on
  their internal schema.
* Python floats are modelled as `Rat`; timestamps (`checked_on`,
  `timestamp`, wall-clock `datetime.now`) are not modelled.
-/

namespace FactCheck

/-- One loosely structured record returned by an external search source
(Python `Dict[str, Any]`); opaque key-value map. -/
abbrev SourceRecord := List (String × String)

/-- The parsed JSON body a search client returns: a mapping whose
list-valued entries (`"claims"`, `"items"`, `"data"`, `"docs"`) the
fetch helpers extract. -/
abbrev SearchResponse := List (String × List SourceRecord)

/-- Python `res.get(key, [])` on a parsed JSON object. -/
def getListD (res : SearchResponse) (key : String) : List SourceRecord :=
  match res.lookup key with
  | some v => v
  | none => []

/-- Python `str.lower()`, character-wise lowercasing (the category strings
the code compares against are basic-latin). `fact_check.py` line 105. -/
def pyLower (s : String) : String := ⟨s.data.map Char.toLower⟩

/-- Python `a or b` on strings (`b` when `a` is `None` or empty). -/
def pyOrStr (a : Option String) (b : String) : String :=
  match a with
  | some s => if s = "" then b else s
  | none => b

/-- Embeds `models.LegalClaim` (pydantic model, defaults as in `models.py`). -/
structure LegalClaim where
  sentence_id : Int := 0
  sentence_text : String
  claim_type : String
  search_query : String
  requires_verification : Bool := true
  confidence : Rat := 1
  location : String := ""
deriving DecidableEq, Repr

/-- Embeds `models.VerificationEvidence`: the per-claim evidence bundle with
exactly four sequence-valued source fields, each defaulting to empty. -/
structure VerificationEvidence where
  claim_id : Int
  google_fact_checks : List SourceRecord := []
  news_results : List SourceRecord := []
  academic_results : List SourceRecord := []
  indian_kanoon_results : List SourceRecord := []
deriving DecidableEq, Repr

/-- Embeds `models.LegalFactCheck` (one verdict record; the `checked_on`
timestamp is not modelled). -/
structure LegalFactCheck where
  sentence_id : Int
  sentence : String
  claim : String
  verdict : String
  source : String
  source_type : String
  corrected_sentence : Option String := none
  legal_authority_level : String
  citation_provided : Option String := none
deriving DecidableEq, Repr

/-- Embeds `models.LegalVerificationReport` (the `timestamp` field is not
modelled). -/
structure LegalVerificationReport where
  blog_id : String
  total_claims_extracted : Int
  verifiable_claims : Int
  verified_claims : Int
  accuracy_score : Rat
  claims_breakdown : List (String × Int)
  fact_checks : List LegalFactCheck
  recommendations : List String := []
deriving DecidableEq, Repr

/-- The outcome of each of the four clients' `search` call for one claim:
`.error` means the call raised (timeout, transport, non-2xx, malformed
response), `.ok` carries the parsed JSON body. -/
structure ClientOutcomes where
  kanoon : Except String SearchResponse
  news : Except String SearchResponse
  factcheck : Except String SearchResponse
  academic : Except String SearchResponse

/-- Embeds `fetch_kanoon` (lines 133-140): extract `res.get("docs", [])`, absorbing
any raised error into `[]`. -/
def fetch_kanoon (call : Except String SearchResponse) : List SourceRecord :=
  match call with
  | .ok res => getListD res "docs"
  | .error _ => []

/-- Embeds `fetch_news` (lines 116-122): extract `res.get("items", [])`, absorbing
any raised error into `[]` (the `num_results=4` cap lives in the client). -/
def fetch_news (call : Except String SearchResponse) : List SourceRecord :=
  match call with
  | .ok res => getListD res "items"
  | .error _ => []

/-- Embeds `fetch_fact` (lines 108-114): extract `res.get("claims", [])`, absorbing
any raised error into `[]`. -/
def fetch_fact (call : Except String SearchResponse) : List SourceRecord :=
  match call with
  | .ok res => getListD res "claims"
  | .error _ => []

/-- Embeds `fetch_academic` (lines 124-131): `[]` immediately when no academic
client was constructed, otherwise extract `res.get("data", [])`, absorbing
any raised error into `[]`. -/
def fetch_academic (hasAcademicClient : Bool) (call : Except String SearchResponse) :
    List SourceRecord :=
  if hasAcademicClient then
    match call with
    | .ok res => getListD res "data"
    | .error _ => []
  else []

/-- Embeds `LegalFactCheckService.__init__` lines 48-50: the academic client is
constructed only when a truthy (non-`None`, non-empty) `academic_key` is
supplied. -/
def has_academic_client (academic_key : Option String) : Bool :=
  match academic_key with
  | some k => !(k == "")
  | none => false

/-- The four external source categories. -/
inductive ApiSource where
  | legalDatabase
  | generalWeb
  | factCheckDb
  | academicIndex
deriving DecidableEq, Repr

/-- The set (as a list) of sources for which `_gather_evidence_for_claim`
schedules a real fetch rather than an immediately-empty placeholder task,
transcribing the routing conditionals of lines 142-166 (the category string
is lowercased first, line 105). -/
def sourcesQueried (claim_type_raw : String) : List ApiSource :=
  let ct := pyLower claim_type_raw
  (if ct ∈ ["case_law", "statute", "legal_fact"] then [ApiSource.legalDatabase] else [])
    ++ [ApiSource.generalWeb]
    ++ (if ct ∈ ["date_fact", "general_fact", "legal_fact"] then [ApiSource.factCheckDb] else [])
    ++ (if ct ∈ ["case_law", "statute"] then [ApiSource.academicIndex] else [])

/-- The routing table of spec §4.1, written from the spec's words for
comparison with `sourcesQueried` (the code-derived routing). -/
def routeSpec (category : String) : List ApiSource :=
  if category = "case_law" ∨ category = "statute" then
    [ApiSource.legalDatabase, ApiSource.generalWeb, ApiSource.academicIndex]
  else if category = "legal_fact" then
    [ApiSource.legalDatabase, ApiSource.generalWeb, ApiSource.factCheckDb]
  else if category = "date_fact" ∨ category = "general_fact" then
    [ApiSource.generalWeb, ApiSource.factCheckDb]
  else
    [ApiSource.generalWeb]

/-- Embeds `_gather_evidence_for_claim` (lines 98-175): lowercase the claim type,
run the routed fetches (unrouted slots yield `[]` via
`asyncio.sleep(0, result=[])`), and assemble the `VerificationEvidence`
bundle. Each fetch absorbs its own failure, so the function is total. -/
def gather_evidence_for_claim (hasAcademicClient : Bool) (claim : LegalClaim)
    (env : ClientOutcomes) : VerificationEvidence :=
  let ct := pyLower claim.claim_type
  let kanoon_res :=
    if ct ∈ ["case_law", "statute", "legal_fact"] then fetch_kanoon env.kanoon else []
  let news_res := fetch_news env.news
  let fc_res :=
    if ct ∈ ["date_fact", "general_fact", "legal_fact"] then fetch_fact env.factcheck else []
  let acad_res :=
    if ct ∈ ["case_law", "statute"] then fetch_academic hasAcademicClient env.academic else []
  { claim_id := claim.sentence_id
    indian_kanoon_results := kanoon_res
    news_results := news_res
    google_fact_checks := fc_res
    academic_results := acad_res }

/-- One element of the adjudication oracle's `fact_checks` array, after
`json.loads`: every field may be absent (`none`). -/
structure JudgeItem where
  sentence_id : Option Int := none
  sentence : Option String := none
  claim : Option String := none
  verdict : Option String := none
  source : Option String := none
  source_type : Option String := none
  legal_authority_level : Option String := none
  citation_provided : Option String := none
  corrected_sentence : Option String := none
deriving DecidableEq, Repr

/-- The adjudication oracle's parsed top-level JSON object: every field may
be absent (`none`), in which case the orchestrator substitutes a locally
computed fallback. -/
structure JudgeResult where
  total_claims_extracted : Option Int := none
  verifiable_claims : Option Int := none
  verified_claims : Option Int := none
  accuracy_score : Option Rat := none
  claims_breakdown : Option (List (String × Int)) := none
  fact_checks : Option (List JudgeItem) := none
deriving DecidableEq, Repr

/-- The loop body of lines 267-282: parse one oracle `fact_checks` item into
a `LegalFactCheck`, applying the per-field defaults
(`item.get("verdict", "unverifiable").lower()`,
`item.get("sentence", "") or item.get("claim", "")`,
`item.get("source") or "Unknown"`, `item.get("source_type", "secondary")`,
`item.get("legal_authority_level", "secondary")`). -/
def parse_fact_check (item : JudgeItem) : LegalFactCheck :=
  { sentence_id := item.sentence_id.getD 0
    sentence := pyOrStr item.sentence (item.claim.getD "")
    claim := item.claim.getD ""
    verdict := pyLower (item.verdict.getD "unverifiable")
    source := pyOrStr item.source "Unknown"
    source_type := item.source_type.getD "secondary"
    corrected_sentence := item.corrected_sentence
    legal_authority_level := item.legal_authority_level.getD "secondary"
    citation_provided := item.citation_provided }

/-- Embeds `_generate_empty_report` (lines 301-312). -/
def generate_empty_report (blog_id : String) (count : Int) : LegalVerificationReport :=
  { blog_id := blog_id
    total_claims_extracted := count
    verifiable_claims := count
    verified_claims := 0
    accuracy_score := 0
    claims_breakdown := []
    fact_checks := []
    recommendations := ["Analysis failed."] }

/-- One entry of the payload sent to the adjudication oracle (lines 184-221):
the claim's id, text and type together with its size-compressed evidence
(Indian Kanoon truncated to the top 3 records). The per-record field
projection of the Python code is abstracted away; counts and order are
preserved. -/
structure ContextEntry where
  sentence_id : Int
  original_sentence : String
  claim_type : String
  kanoon_shown : List SourceRecord
  fact_check_shown : List SourceRecord
  web_shown : List SourceRecord
  academic_shown : List SourceRecord
deriving DecidableEq, Repr

/-- Embeds `context_data` assembly (lines 184-221): one entry per
`zip(claims, evidence_list)` pair, in claim order. -/
def context_data (claims : List LegalClaim) (evidence_list : List VerificationEvidence) :
    List ContextEntry :=
  (claims.zip evidence_list).map fun p =>
    { sentence_id := p.1.sentence_id
      original_sentence := p.1.sentence_text
      claim_type := p.1.claim_type
      kanoon_shown := p.2.indian_kanoon_results.take 3
      fact_check_shown := p.2.google_fact_checks
      web_shown := p.2.news_results
      academic_shown := p.2.academic_results }

/-- Embeds `_generate_final_verdict_llm` (lines 177-299): build the payload, show it
to the adjudication oracle (`judge`, modelling `generate_content_async` +
`json.loads`), parse its `fact_checks` in the order the oracle lists them,
and assemble the report with per-field fallbacks; if the oracle call or the
parse raised, fall back to `_generate_empty_report(blog_id, len(claims))`. -/
def generate_final_verdict_llm (blog_id : String) (claims : List LegalClaim)
    (evidence_list : List VerificationEvidence)
    (judge : List ContextEntry → Except String JudgeResult) : LegalVerificationReport :=
  match judge (context_data claims evidence_list) with
  | .error _ => generate_empty_report blog_id claims.length
  | .ok rj =>
    let fact_checks_objs := (rj.fact_checks.getD []).map parse_fact_check
    { blog_id := blog_id
      total_claims_extracted := rj.total_claims_extracted.getD claims.length
      verifiable_claims := rj.verifiable_claims.getD claims.length
      verified_claims := rj.verified_claims.getD fact_checks_objs.length
      accuracy_score := rj.accuracy_score.getD 0
      claims_breakdown := rj.claims_breakdown.getD []
      fact_checks := fact_checks_objs
      recommendations := [] }

/-- Embeds `verify_legal_blog` (lines 65-96). The extraction oracle's output is the
`extracted_claims` input (the extractor itself absorbs its failures into an
empty list, `legal_claim_extractor.py` lines 80-83); `source_outcomes`
gives each claim's four client-call outcomes (`asyncio.gather` preserves
task order, so evidence results line up with claims). -/
def verify_legal_blog (hasAcademicClient : Bool) (blog_id : String)
    (extracted_claims : List LegalClaim) (source_outcomes : List ClientOutcomes)
    (judge : List ContextEntry → Except String JudgeResult) : LegalVerificationReport :=
  if extracted_claims.isEmpty then
    generate_empty_report blog_id 0
  else
    let evidence_results := (extracted_claims.zip source_outcomes).map
      fun p => gather_evidence_for_claim hasAcademicClient p.1 p.2
    generate_final_verdict_llm blog_id extracted_claims evidence_results judge

/-! ### Helper lemmas -/

theorem char_toNat_ofNat_of_valid {n : Nat} (h : Nat.isValidChar n) :
    (Char.ofNat n).toNat = n := by
  simp [Char.ofNat, dif_pos h, Char.ofNatAux, Char.toNat, UInt32.toNat]

theorem char_toLower_idem (c : Char) : c.toLower.toLower = c.toLower := by
  unfold Char.toLower
  by_cases h : c.toNat ≥ 65 ∧ c.toNat ≤ 90
  · rw [if_pos h]
    have hv : Nat.isValidChar (c.toNat + 32) := Or.inl (by omega)
    have ht : (Char.ofNat (c.toNat + 32)).toNat = c.toNat + 32 :=
      char_toNat_ofNat_of_valid hv
    rw [ht, if_neg (by omega)]
  · rw [if_neg h, if_neg h]

theorem pyLower_idem (s : String) : pyLower (pyLower s) = pyLower s := by
  unfold pyLower
  show (⟨(s.data.map Char.toLower).map Char.toLower⟩ : String) = _
  rw [List.map_map]
  exact congrArg String.mk (List.map_congr_left fun c _ => char_toLower_idem c)


/-! ### Claim theorems -/

/-- Claim C1 counterexample: the category string "CASE_LAW" is none of the
five known category strings, yet the gatherer queries legal-database,
general-web and academic-index for it (the claim type is lowercased before
routing), not general-web alone. -/
theorem C1_unknown_category_cex :
    "CASE_LAW" ∉ ["statute", "case_law", "date_fact", "legal_fact", "general_fact"] ∧
    sourcesQueried "CASE_LAW" ≠ [ApiSource.generalWeb] := by decide

/-- Claim C1 (amended): the sources queried for a claim are exactly the fixed
routing table of spec §4.1 applied to the lowercased category string —
case_law and statute query legal-database, general-web and academic-index;
legal_fact queries legal-database, general-web and fact-check-database;
date_fact and general_fact query general-web and fact-check-database; any
category whose lowercased form is none of the five known strings queries
only general-web — and the queried set is never empty. -/
theorem C1_routing_table (ct : String) :
    sourcesQueried ct = routeSpec (pyLower ct) ∧ sourcesQueried ct ≠ [] := by
  unfold sourcesQueried routeSpec
  generalize pyLower ct = c
  by_cases h1 : c = "case_law" <;>
    by_cases h2 : c = "statute" <;>
      by_cases h3 : c = "legal_fact" <;>
        by_cases h4 : c = "date_fact" <;>
          by_cases h5 : c = "general_fact" <;>
            simp_all [List.mem_cons]

/-- Witness for C1 at the concrete category "date_fact": the queried set
matches the table row and is non-empty. -/
theorem C1_routing_table_witness :
    sourcesQueried "date_fact" = routeSpec (pyLower "date_fact") ∧
    sourcesQueried "date_fact" ≠ [] :=
  C1_routing_table "date_fact"

/-- Claim C2: gathering never propagates an error — a failing source call
(`.error`) contributes an empty sequence for its own field only, each of the
four bundle fields is determined solely by its own source's outcome
(siblings unaffected), and when every source call fails the returned bundle
is the non-error bundle with all four sequence fields empty. -/
theorem C2_gather_isolation (hasAcad : Bool) (claim : LegalClaim) (env env2 : ClientOutcomes) :
    ((∃ e, env.kanoon = Except.error e) →
      (gather_evidence_for_claim hasAcad claim env).indian_kanoon_results = []) ∧
    ((∃ e, env.news = Except.error e) →
      (gather_evidence_for_claim hasAcad claim env).news_results = []) ∧
    ((∃ e, env.factcheck = Except.error e) →
      (gather_evidence_for_claim hasAcad claim env).google_fact_checks = []) ∧
    ((∃ e, env.academic = Except.error e) →
      (gather_evidence_for_claim hasAcad claim env).academic_results = []) ∧
    (env.kanoon = env2.kanoon →
      (gather_evidence_for_claim hasAcad claim env).indian_kanoon_results =
        (gather_evidence_for_claim hasAcad claim env2).indian_kanoon_results) ∧
    (env.news = env2.news →
      (gather_evidence_for_claim hasAcad claim env).news_results =
        (gather_evidence_for_claim hasAcad claim env2).news_results) ∧
    (env.factcheck = env2.factcheck →
      (gather_evidence_for_claim hasAcad claim env).google_fact_checks =
        (gather_evidence_for_claim hasAcad claim env2).google_fact_checks) ∧
    (env.academic = env2.academic →
      (gather_evidence_for_claim hasAcad claim env).academic_results =
        (gather_evidence_for_claim hasAcad claim env2).academic_results) ∧
    ((∃ e1 e2 e3 e4,
        env = ⟨Except.error e1, Except.error e2, Except.error e3, Except.error e4⟩) →
      gather_evidence_for_claim hasAcad claim env =
        { claim_id := claim.sentence_id, google_fact_checks := [], news_results := [],
          academic_results := [], indian_kanoon_results := [] }) := by
  refine ⟨?_, ?_, ?_, ?_, ?_, ?_, ?_, ?_, ?_⟩
  · rintro ⟨e, he⟩
    simp [gather_evidence_for_claim, he, fetch_kanoon]
  · rintro ⟨e, he⟩
    simp [gather_evidence_for_claim, he, fetch_news]
  · rintro ⟨e, he⟩
    simp [gather_evidence_for_claim, he, fetch_fact]
  · rintro ⟨e, he⟩
    simp [gather_evidence_for_claim, he, fetch_academic]
  · intro h
    simp [gather_evidence_for_claim, h]
  · intro h
    simp [gather_evidence_for_claim, h]
  · intro h
    simp [gather_evidence_for_claim, h]
  · intro h
    simp [gather_evidence_for_claim, h]
  · rintro ⟨e1, e2, e3, e4, rfl⟩
    simp [gather_evidence_for_claim, fetch_kanoon, fetch_news, fetch_fact, fetch_academic]

/-- Witness for C2 at a concrete claim whose every source call fails: the
gatherer returns the all-empty bundle. -/
theorem C2_gather_isolation_witness :
    gather_evidence_for_claim true
        { sentence_id := 1, sentence_text := "s", claim_type := "case_law", search_query := "q" }
        ⟨Except.error "timeout", Except.error "timeout", Except.error "timeout",
          Except.error "timeout"⟩ =
      { claim_id := 1, google_fact_checks := [], news_results := [],
        academic_results := [], indian_kanoon_results := [] } := by
  have h := C2_gather_isolation true
    { sentence_id := 1, sentence_text := "s", claim_type := "case_law", search_query := "q" }
    ⟨Except.error "timeout", Except.error "timeout", Except.error "timeout",
      Except.error "timeout"⟩
    ⟨Except.error "timeout", Except.error "timeout", Except.error "timeout",
      Except.error "timeout"⟩
  exact h.2.2.2.2.2.2.2.2 ⟨"timeout", "timeout", "timeout", "timeout", rfl⟩


/-- Claim C3 counterexample: on a run extracting zero claims the pipeline
still emits the failure recommendation `["Analysis failed."]` (the code
reuses `_generate_empty_report` for both the nothing-to-verify case and
genuine failures), so the recommendations list is not empty. -/
theorem C3_zero_claims_cex :
    (verify_legal_blog false "blog" [] []
        fun _ => Except.error "unreached").recommendations ≠ [] := by
  decide

/-- Claim C3 (amended): running the pipeline on a document from which zero
claims are extracted produces a report with `total_claims_extracted = 0`,
`verified_claims = 0`, `accuracy_score = 0`, an empty verdicts sequence —
but `recommendations = ["Analysis failed."]`: the code does not distinguish
the nothing-to-verify case from a genuine failure by its recommendations. -/
theorem C3_zero_claims_report (hasAcad : Bool) (b : String)
    (envs : List ClientOutcomes) (judge : List ContextEntry → Except String JudgeResult) :
    (verify_legal_blog hasAcad b [] envs judge).total_claims_extracted = 0 ∧
    (verify_legal_blog hasAcad b [] envs judge).verified_claims = 0 ∧
    (verify_legal_blog hasAcad b [] envs judge).accuracy_score = 0 ∧
    (verify_legal_blog hasAcad b [] envs judge).fact_checks = [] ∧
    (verify_legal_blog hasAcad b [] envs judge).recommendations = ["Analysis failed."] := by
  simp [verify_legal_blog, generate_empty_report]

/-- Claim C4: when the adjudication oracle call fails on a run with N
extracted claims, the pipeline returns (never raises) a report with
`total_claims_extracted = N`, an empty verdicts sequence, and the non-empty
`recommendations = ["Analysis failed."]`. -/
theorem C4_judge_failure_report (hasAcad : Bool) (b : String)
    (claims : List LegalClaim) (envs : List ClientOutcomes) (msg : String) :
    (verify_legal_blog hasAcad b claims envs
        fun _ => Except.error msg).total_claims_extracted = claims.length ∧
    (verify_legal_blog hasAcad b claims envs fun _ => Except.error msg).fact_checks = [] ∧
    (verify_legal_blog hasAcad b claims envs
        fun _ => Except.error msg).recommendations = ["Analysis failed."] := by
  cases claims with
  | nil => simp [verify_legal_blog, generate_empty_report]
  | cons c cs =>
    simp [verify_legal_blog, generate_final_verdict_llm, generate_empty_report]

/-- Claim C5 counterexample: with two extracted claims (ids 1 then 2) and an
adjudication response listing its per-claim results for id 2 before id 1,
the report's verdicts carry ids `[2, 1]` — the oracle's listed order, which
is not `claim_id`-ascending (2 > 1) and differs from the extraction order
`[1, 2]`. -/
theorem C5_order_cex :
    ((verify_legal_blog false "blog"
        [{ sentence_id := 1, sentence_text := "a", claim_type := "date_fact",
           search_query := "qa" },
         { sentence_id := 2, sentence_text := "b", claim_type := "date_fact",
           search_query := "qb" }]
        [⟨Except.error "e", Except.error "e", Except.error "e", Except.error "e"⟩,
         ⟨Except.error "e", Except.error "e", Except.error "e", Except.error "e"⟩]
        (fun _ => Except.ok
          { fact_checks :=
              some [{ sentence_id := some 2 }, { sentence_id := some 1 }] })).fact_checks.map
      (fun fc => fc.sentence_id)) = [2, 1] ∧
    ¬ ((2 : Int) ≤ 1) ∧ [(2 : Int), 1] ≠ [1, 2] := by
  refine ⟨by decide, by decide, by decide⟩

/-- Claim C5 (amended): the report's verdicts appear exactly in the order in
which the adjudication oracle lists its per-claim results (one verdict per
listed item, ids defaulted to 0 when absent); the code performs no indexing
or re-sorting by `claim_id`, so the extraction order is preserved only when
the oracle echoes it. Gathering-task completion order is irrelevant: the
payload shown to the oracle lists claims in extraction order
(`asyncio.gather` preserves task order). -/
theorem C5_verdict_order (b : String) (claims : List LegalClaim)
    (evs : List VerificationEvidence) (rj : JudgeResult) :
    ((generate_final_verdict_llm b claims evs fun _ => Except.ok rj).fact_checks.map
        fun fc => fc.sentence_id) =
      ((rj.fact_checks.getD []).map fun it => it.sentence_id.getD 0) ∧
    ((context_data claims evs).map fun entry => entry.sentence_id) =
      ((claims.zip evs).map fun p => p.1.sentence_id) := by
  constructor
  · simp [generate_final_verdict_llm, parse_fact_check]
  · simp [context_data]

/-- Claim C6 counterexample: the adjudication oracle may report
`total_claims_extracted = 0` while listing one `fact_checks` item; the
report then has one verdict but `total_claims_extracted = 0`, violating
`len(verdicts) ≤ total_claims_extracted`. -/
theorem C6_verdict_count_cex :
    ¬ (((verify_legal_blog false "blog"
          [{ sentence_id := 1, sentence_text := "a", claim_type := "date_fact",
             search_query := "q" }]
          [⟨Except.error "e", Except.error "e", Except.error "e", Except.error "e"⟩]
          fun _ => Except.ok { total_claims_extracted := some 0,
                               fact_checks := some [{}] }).fact_checks.length : Int) ≤
        (verify_legal_blog false "blog"
          [{ sentence_id := 1, sentence_text := "a", claim_type := "date_fact",
             search_query := "q" }]
          [⟨Except.error "e", Except.error "e", Except.error "e", Except.error "e"⟩]
          fun _ => Except.ok { total_claims_extracted := some 0,
                               fact_checks := some [{}] }).total_claims_extracted) := by
  decide

/-- Claim C6 (amended): `len(verdicts) ≤ total_claims_extracted` holds on
every degraded path (zero claims, oracle failure) and whenever the
adjudication oracle's successful output satisfies it, i.e. its listed
`fact_checks` count does not exceed its reported `total_claims_extracted`
(defaulting to the extracted-claim count when omitted); the code does not
enforce the bound against arbitrary oracle output. -/
theorem C6_verdict_count_bound (hasAcad : Bool) (b : String) (claims : List LegalClaim)
    (envs : List ClientOutcomes) (judge : List ContextEntry → Except String JudgeResult)
    (hora : ∀ ctx rj, judge ctx = Except.ok rj →
      ((rj.fact_checks.getD []).length : Int) ≤
        rj.total_claims_extracted.getD claims.length) :
    ((verify_legal_blog hasAcad b claims envs judge).fact_checks.length : Int) ≤
      (verify_legal_blog hasAcad b claims envs judge).total_claims_extracted := by
  unfold verify_legal_blog
  split
  · simp [generate_empty_report]
  · unfold generate_final_verdict_llm
    dsimp only
    split
    · simp [generate_empty_report]
    · rename_i rj hj
      have h := hora _ rj hj
      simpa using h

/-- Witness for C6 at a concrete run whose oracle omits all top-level fields:
the single-claim report satisfies the verdict-count bound. -/
theorem C6_verdict_count_bound_witness :
    ((verify_legal_blog false "blog"
        [{ sentence_id := 1, sentence_text := "a", claim_type := "date_fact",
           search_query := "q" }]
        [⟨Except.error "e", Except.error "e", Except.error "e", Except.error "e"⟩]
        fun _ => Except.ok {}).fact_checks.length : Int) ≤
      (verify_legal_blog false "blog"
        [{ sentence_id := 1, sentence_text := "a", claim_type := "date_fact",
           search_query := "q" }]
        [⟨Except.error "e", Except.error "e", Except.error "e", Except.error "e"⟩]
        fun _ => Except.ok {}).total_claims_extracted := by
  apply C6_verdict_count_bound
  intro ctx rj h
  injection h with h
  subst h
  decide


/-- Claim C7: when parsing the adjudication oracle's per-claim results into
verdict records, every missing field receives its specified default —
`verdict` defaults to "unverifiable", `source_type` and
`legal_authority_level` to "secondary", and `source` to "Unknown". -/
theorem C7_parse_defaults (item : JudgeItem) :
    (item.verdict = none → (parse_fact_check item).verdict = "unverifiable") ∧
    (item.source_type = none → (parse_fact_check item).source_type = "secondary") ∧
    (item.legal_authority_level = none →
      (parse_fact_check item).legal_authority_level = "secondary") ∧
    (item.source = none → (parse_fact_check item).source = "Unknown") := by
  have hlow : pyLower "unverifiable" = "unverifiable" := by decide
  refine ⟨fun h => ?_, fun h => ?_, fun h => ?_, fun h => ?_⟩ <;>
    simp [parse_fact_check, h, pyOrStr, hlow]

/-- Witness for C7 at the oracle item with every field missing: all four
defaults appear in the parsed record. -/
theorem C7_parse_defaults_witness :
    (parse_fact_check {}).verdict = "unverifiable" ∧
    (parse_fact_check {}).source_type = "secondary" ∧
    (parse_fact_check {}).legal_authority_level = "secondary" ∧
    (parse_fact_check {}).source = "Unknown" := by
  have h := C7_parse_defaults {}
  exact ⟨h.1 rfl, h.2.1 rfl, h.2.2.1 rfl, h.2.2.2 rfl⟩

/-- Claim C8: for every claim of category `date_fact`, the gathered bundle
has empty legal-database (Indian Kanoon) and academic-index fields, whatever
the four clients would have returned — routing never schedules those
fetches for that category. -/
theorem C8_date_fact_routing (hasAcad : Bool) (claim : LegalClaim)
    (env : ClientOutcomes) (h : claim.claim_type = "date_fact") :
    (gather_evidence_for_claim hasAcad claim env).indian_kanoon_results = [] ∧
    (gather_evidence_for_claim hasAcad claim env).academic_results = [] := by
  have hl : pyLower claim.claim_type = "date_fact" := by rw [h]; decide
  constructor <;> simp [gather_evidence_for_claim, hl]

/-- Witness for C8: a concrete `date_fact` claim whose legal-database and
academic-index clients both return non-empty result sets still yields a
bundle with both fields empty. -/
theorem C8_date_fact_routing_witness :
    (gather_evidence_for_claim true
        { sentence_id := 7, sentence_text := "On 1 Jan 2020 ...",
          claim_type := "date_fact", search_query := "date query" }
        ⟨Except.ok [("docs", [[("title", "Some Case")]])],
         Except.ok [("items", [[("title", "News")]])],
         Except.ok [("claims", [[("text", "Checked")]])],
         Except.ok [("data", [[("title", "Paper")]])]⟩).indian_kanoon_results = [] ∧
    (gather_evidence_for_claim true
        { sentence_id := 7, sentence_text := "On 1 Jan 2020 ...",
          claim_type := "date_fact", search_query := "date query" }
        ⟨Except.ok [("docs", [[("title", "Some Case")]])],
         Except.ok [("items", [[("title", "News")]])],
         Except.ok [("claims", [[("text", "Checked")]])],
         Except.ok [("data", [[("title", "Paper")]])]⟩).academic_results = [] :=
  C8_date_fact_routing true
    { sentence_id := 7, sentence_text := "On 1 Jan 2020 ...",
      claim_type := "date_fact", search_query := "date query" }
    ⟨Except.ok [("docs", [[("title", "Some Case")]])],
     Except.ok [("items", [[("title", "News")]])],
     Except.ok [("claims", [[("text", "Checked")]])],
     Except.ok [("data", [[("title", "Paper")]])]⟩ rfl

/-- Claim C9: evidence routing is invariant under the letter case of the
category string — the gatherer lowercases the category before comparing, so
a claim routes exactly as its lowercased-category twin, and the queried
source set for a category string equals the one for its lowercase form. -/
theorem C9_routing_case_insensitive (hasAcad : Bool) (claim : LegalClaim)
    (env : ClientOutcomes) :
    sourcesQueried claim.claim_type = sourcesQueried (pyLower claim.claim_type) ∧
    gather_evidence_for_claim hasAcad claim env =
      gather_evidence_for_claim hasAcad
        { claim with claim_type := pyLower claim.claim_type } env := by
  constructor
  · unfold sourcesQueried
    rw [pyLower_idem]
  · unfold gather_evidence_for_claim
    rw [pyLower_idem]

/-- Claim C10: when the service is constructed without an academic-index
credential (`academic_key = None`, so no academic client exists), gathering
still returns the four-field bundle for every claim — the function is total,
no error path exists — and the academic field is the empty sequence for
every category, including `case_law` and `statute` which route to the
academic index. -/
theorem C10_no_academic_key (claim : LegalClaim) (env : ClientOutcomes) :
    (gather_evidence_for_claim (has_academic_client none) claim env).academic_results = [] ∧
    (gather_evidence_for_claim (has_academic_client none) claim env).claim_id =
      claim.sentence_id := by
  constructor
  · simp [gather_evidence_for_claim, has_academic_client, fetch_academic]
  · simp [gather_evidence_for_claim]

end FactCheck
